import Mathlib

/-!
Verification of the KiloMan platformer simulation core.

The game's numeric state (positions, velocities, camera offsets, elapsed
time) is modelled with exact rationals `ℚ`; the per-frame `update` routine
of `GameCanvas.tsx`, the score function `calculatePoints` of
`gameLogic.ts`, and the session initializer are embedded as pure Lean
functions, translated clause by clause from the TypeScript source.
-/

namespace KiloMan

/-! ## Configuration constants (`CONFIG` in `GameCanvas.tsx`) -/

def gravity : ℚ := 0.6
def friction : ℚ := 0.85
def moveSpeed : ℚ := 0.8
def maxSpeed : ℚ := 8
def baseJumpForce : ℚ := -14
def levelWidth : ℚ := 7000

/-! ## Data model (`types.ts`) -/

inductive EntityType where
  | platform
  | hazard
  | goal
  | start
  | monster
deriving DecidableEq, Repr

structure LevelEntity where
  id : String
  x : ℚ
  y : ℚ
  w : ℚ
  h : ℚ
  type : EntityType
  patrolStart : Option ℚ := none
  patrolEnd : Option ℚ := none
  speed : Option ℚ := none
deriving DecidableEq, Repr

structure PlayerState where
  x : ℚ
  y : ℚ
  vx : ℚ
  vy : ℚ
  width : ℚ
  height : ℚ
  isGrounded : Bool
  facing : ℤ
  frame : ℕ
deriving DecidableEq, Repr

structure MonsterState where
  id : String
  x : ℚ
  y : ℚ
  w : ℚ
  h : ℚ
  vx : ℚ
  patrolStart : ℚ
  patrolEnd : ℚ
  speed : ℚ
deriving DecidableEq, Repr

structure Camera where
  x : ℚ
  y : ℚ
deriving DecidableEq, Repr

structure Keys where
  left : Bool
  right : Bool
  space : Bool
deriving DecidableEq, Repr

inductive Outcome where
  | ongoing
  | won
  | lost
deriving DecidableEq, Repr

/-! ## Score calculator (`gameLogic.ts`, duplicated in `GameContainer.tsx`) -/

/-- `calculatePoints` from `gameLogic.ts`:
`Math.max(1000, 10000 - Math.floor(timeInSeconds * 100))`. -/
def calculatePoints (timeInSeconds : ℚ) : ℤ :=
  max 1000 (10000 - ⌊timeInSeconds * 100⌋)

/-! ## Player physics (`update`, lines 338-366 of `GameCanvas.tsx`) -/

/-- Sequential clamp of `vx` to `[-maxSpeed, maxSpeed]`:
`if (vx > maxSpeed) vx = maxSpeed; if (vx < -maxSpeed) vx = -maxSpeed;`. -/
def clampVx (v : ℚ) : ℚ :=
  let v := if v > maxSpeed then maxSpeed else v
  if v < -maxSpeed then -maxSpeed else v

/-- The horizontal-velocity pipeline of one frame: arrow-key acceleration,
multiplicative friction, then the clamp. -/
def nextVx (left right : Bool) (vx : ℚ) : ℚ :=
  let vx := if left then vx - moveSpeed else vx
  let vx := if right then vx + moveSpeed else vx
  clampVx (vx * friction)

/-- Facing update: `ArrowLeft` sets `-1`, `ArrowRight` then overwrites `1`. -/
def nextFacing (left right : Bool) (facing : ℤ) : ℤ :=
  if right then 1 else if left then -1 else facing

/-- One frame of player physics: input acceleration, friction and clamp on
`vx`, gravity on `vy`, the grounded jump, then position integration. -/
def physicsStep (keys : Keys) (jumpModifier : ℚ) (p : PlayerState) : PlayerState :=
  let vx := nextVx keys.left keys.right p.vx
  let vyGrav := p.vy + gravity
  let jumped := keys.space && p.isGrounded
  let vy := if jumped then baseJumpForce * jumpModifier else vyGrav
  let grounded := if jumped then false else p.isGrounded
  { p with
    vx := vx, vy := vy, isGrounded := grounded,
    facing := nextFacing keys.left keys.right p.facing,
    x := p.x + vx, y := p.y + vy }

/-! ## Monster patrol (`update`, lines 368-379) -/

/-- One frame of monster patrol: advance by `vx`, then clamp-and-reverse at
`patrolStart` / `patrolEnd`. -/
def monsterStep (m : MonsterState) : MonsterState :=
  let x := m.x + m.vx
  if x ≤ m.patrolStart then
    { m with x := m.patrolStart, vx := |m.speed| }
  else if x ≥ m.patrolEnd then
    { m with x := m.patrolEnd, vx := -|m.speed| }
  else
    { m with x := x }

/-! ## Collision detection (`update`, lines 381-447) -/

/-- Strict axis-aligned rectangle overlap, as in the entity loop. -/
def rectOverlap (px py pw ph x y w h : ℚ) : Bool :=
  px < x + w && px + pw > x && py < y + h && py + ph > y

/-- Player / level-entity overlap test. -/
def overlapsEntity (p : PlayerState) (e : LevelEntity) : Bool :=
  rectOverlap p.x p.y p.width p.height e.x e.y e.w e.h

/-- Player / monster overlap test. -/
def overlapsMonster (p : PlayerState) (m : MonsterState) : Bool :=
  rectOverlap p.x p.y p.width p.height m.x m.y m.w m.h

/-- Penetration depth on the X axis: sum of half-widths minus the absolute
distance between centers. -/
def overlapX (p : PlayerState) (e : LevelEntity) : ℚ :=
  (p.width + e.w) / 2 - |p.x + p.width / 2 - (e.x + e.w / 2)|

/-- Penetration depth on the Y axis. -/
def overlapY (p : PlayerState) (e : LevelEntity) : ℚ :=
  (p.height + e.h) / 2 - |p.y + p.height / 2 - (e.y + e.h / 2)|

/-- Platform push-out (lines 414-431): the axis with strictly smaller X
penetration is resolved horizontally, otherwise vertically. -/
def resolvePlatform (p : PlayerState) (e : LevelEntity) : PlayerState :=
  if overlapX p e < overlapY p e then
    let x := if p.vx > 0 then e.x - p.width else e.x + e.w
    { p with x := x, vx := 0 }
  else if p.vy > 0 then
    { p with y := e.y - p.height, isGrounded := true, vy := 0 }
  else
    { p with y := e.y + e.h, vy := 0 }

/-- The static entity scan (lines 394-434): iterate the level in order,
skipping monsters; a hazard overlap emits `lost` and a goal overlap emits
`won`, both stopping the scan; platform overlaps are resolved in place. -/
def entityScan : List LevelEntity → PlayerState → PlayerState × Outcome
  | [], p => (p, Outcome.ongoing)
  | e :: rest, p =>
    if e.type = EntityType.monster then entityScan rest p
    else if overlapsEntity p e then
      if e.type = EntityType.hazard then (p, Outcome.lost)
      else if e.type = EntityType.goal then (p, Outcome.won)
      else if e.type = EntityType.platform then entityScan rest (resolvePlatform p e)
      else entityScan rest p
    else entityScan rest p

/-- World-boundary clamp on `x` (lines 386-387), zeroing `vx` when it acts. -/
def clampWorldX (p : PlayerState) : PlayerState :=
  let p := if p.x < 0 then { p with x := 0, vx := 0 } else p
  if p.x > levelWidth then { p with x := levelWidth, vx := 0 } else p

/-- Player-versus-monster fatal contact check (lines 437-447). -/
def monsterCollide (ms : List MonsterState) (p : PlayerState) : Bool :=
  ms.any (fun m => overlapsMonster p m)

/-! ## Camera (`update`, lines 449-494) -/

/-- Horizontal camera target: center the player, then the two sequential
clamps against `0` and `levelWidth - canvas.width`. -/
def cameraTargetX (p : PlayerState) (cw : ℚ) : ℚ :=
  let t := p.x - cw / 2 + p.width / 2
  let t := if t < 0 then 0 else t
  if t > levelWidth - cw then levelWidth - cw else t

/-- Vertical camera target: fixed ground-level offset, overridden by the
climbing and falling follow regimes, then clamped at the level floor. -/
def cameraTargetY (p : PlayerState) (ch : ℚ) : ℚ :=
  let groundLevel : ℚ := 600
  let idealCameraY := groundLevel - ch + 50
  let t := idealCameraY
  let t := if p.y < groundLevel - ch * 0.6 then p.y - ch * 0.4 else t
  let t := if p.y > groundLevel + 100 then p.y - ch * 0.8 else t
  let lowestPoint : ℚ := 800
  let maxCameraY := lowestPoint - ch
  if t > maxCameraY then maxCameraY else t

/-- Exponential smoothing toward the targets: `0.1` horizontally, `0.05`
vertically. -/
def cameraStep (cam : Camera) (p : PlayerState) (cw ch : ℚ) : Camera :=
  { x := cam.x + (cameraTargetX p cw - cam.x) * 0.1,
    y := cam.y + (cameraTargetY p ch - cam.y) * 0.05 }

/-! ## The full per-frame step (`update`) -/

structure StepResult where
  player : PlayerState
  monsters : List MonsterState
  camera : Camera
  outcome : Outcome
deriving DecidableEq, Repr

/-- One invocation of `update` while `gameState === 'playing'`: player
physics, monster patrol, the grounded reset, the world clamp, the void
check, the static entity scan, the monster collision check, and finally the
camera update (which runs only when no outcome was emitted). -/
def update (keys : Keys) (jumpModifier : ℚ) (level : List LevelEntity)
    (p : PlayerState) (monsters : List MonsterState) (cam : Camera)
    (cw ch : ℚ) : StepResult :=
  let p := physicsStep keys jumpModifier p
  let ms := monsters.map monsterStep
  let p := { p with isGrounded := false }
  let p := clampWorldX p
  if p.y > 800 then ⟨p, ms, cam, Outcome.lost⟩
  else
    match entityScan level p with
    | (p, Outcome.lost) => ⟨p, ms, cam, Outcome.lost⟩
    | (p, Outcome.won) => ⟨p, ms, cam, Outcome.won⟩
    | (p, Outcome.ongoing) =>
      if monsterCollide ms p then ⟨p, ms, cam, Outcome.lost⟩
      else ⟨p, ms, cameraStep cam p cw ch, Outcome.ongoing⟩

/-! ## Session initialization (reset effect, lines 102-133) -/

/-- JavaScript `a || b` on an optional numeric field: the default is used
when the field is absent or `0` (falsy). -/
def jsOr : Option ℚ → ℚ → ℚ
  | none, d => d
  | some v, d => if v = 0 then d else v

/-- Initial player built from the level's first `start` entity, with the
`(50, 350)` fallback. -/
def initPlayer (level : List LevelEntity) : PlayerState :=
  match level.find? (fun e => e.type = EntityType.start) with
  | some s => ⟨s.x, s.y, 0, 0, 30, 50, false, 1, 0⟩
  | none => ⟨50, 350, 0, 0, 30, 50, false, 1, 0⟩

/-- Monster state built from one `monster` level entity. -/
def initMonster (m : LevelEntity) : MonsterState :=
  { id := m.id, x := m.x, y := m.y, w := m.w, h := m.h,
    vx := jsOr m.speed 2,
    patrolStart := jsOr m.patrolStart (m.x - 100),
    patrolEnd := jsOr m.patrolEnd (m.x + 100),
    speed := jsOr m.speed 2 }

/-- Monster list built from the level's `monster` entities, in order. -/
def initMonsters (level : List LevelEntity) : List MonsterState :=
  (level.filter (fun e => e.type = EntityType.monster)).map initMonster

structure SessionState where
  player : PlayerState
  monsters : List MonsterState
  camera : Camera
deriving DecidableEq, Repr

/-- The reset effect on entering `playing`: every mutable session cell is
overwritten from the level data alone. -/
def resetSession (_prior : SessionState) (level : List LevelEntity) : SessionState :=
  { player := initPlayer level, monsters := initMonsters level, camera := ⟨0, 0⟩ }

/-- C1: `calculatePoints(t) = max(1000, 10000 - floor(t*100))`; the value is
`10000` at `t = 0`, `1000` at `t = 90` and for every `t ≥ 90`, `9810` at
`t = 1.9`; the function is non-increasing; and there is no upper clamp, so
`calculatePoints(-10) = 11000`. -/
theorem calculatePoints_spec :
    (∀ t : ℚ, calculatePoints t = max 1000 (10000 - ⌊t * 100⌋)) ∧
    calculatePoints 0 = 10000 ∧
    calculatePoints 90 = 1000 ∧
    (∀ t : ℚ, 90 ≤ t → calculatePoints t = 1000) ∧
    calculatePoints (19/10) = 9810 ∧
    (∀ t₁ t₂ : ℚ, t₁ ≤ t₂ → calculatePoints t₂ ≤ calculatePoints t₁) ∧
    calculatePoints (-10) = 11000 := by
  refine ⟨fun t => rfl, by norm_num [calculatePoints], by norm_num [calculatePoints],
    ?_, by norm_num [calculatePoints], ?_, by norm_num [calculatePoints]⟩
  · intro t ht
    have h1 : (9000 : ℤ) ≤ ⌊t * 100⌋ := by
      have : (9000 : ℚ) ≤ t * 100 := by linarith
      exact_mod_cast Int.le_floor.mpr (by exact_mod_cast this)
    unfold calculatePoints
    omega
  · intro t₁ t₂ h
    have hf : ⌊t₁ * 100⌋ ≤ ⌊t₂ * 100⌋ :=
      Int.floor_le_floor (by linarith)
    unfold calculatePoints
    omega

/-- Witness for `calculatePoints_spec` at concrete inputs. -/
theorem calculatePoints_spec_witness :
    calculatePoints 200 = 1000 ∧ calculatePoints 5 ≤ calculatePoints 2 :=
  ⟨calculatePoints_spec.2.2.2.1 200 (by norm_num),
   calculatePoints_spec.2.2.2.2.2.1 2 5 (by norm_num)⟩

/-! ## C2: platform push-out axis -/

/-- Concrete player for the C2 tie-break check: `vx = 0`, center strictly on
the platform's left side, penetrating deeper on Y than on X. -/
def cexPlayerC2 : PlayerState := ⟨90, 300, 0, 0, 30, 50, false, 1, 0⟩

/-- Concrete platform for the C2 tie-break check. -/
def cexPlatformC2 : LevelEntity :=
  { id := "p", x := 100, y := 290, w := 100, h := 100, type := EntityType.platform }

/-- C2 counterexample: with `vx = 0` and the player's center strictly left of
the platform's center, the code still pushes the player to the platform's
*right* edge, not toward the player's current position. -/
theorem resolvePlatform_tie_counterexample :
    cexPlayerC2.vx = 0 ∧
    overlapX cexPlayerC2 cexPlatformC2 < overlapY cexPlayerC2 cexPlatformC2 ∧
    cexPlayerC2.x + cexPlayerC2.width / 2 < cexPlatformC2.x + cexPlatformC2.w / 2 ∧
    (resolvePlatform cexPlayerC2 cexPlatformC2).x = cexPlatformC2.x + cexPlatformC2.w ∧
    cexPlatformC2.x + cexPlatformC2.w ≠ cexPlatformC2.x - cexPlayerC2.width := by
  norm_num [resolvePlatform, overlapX, overlapY, cexPlayerC2, cexPlatformC2]

/-- C2 (amended): the axis of strictly smaller penetration is pushed out;
`vx > 0` pushes the player flush with the platform's left edge, and `vx ≤ 0`
(including the `vx = 0` tie) pushes it flush with the right edge, zeroing
`vx` in every horizontal push; when `overlapX ≥ overlapY` the resolution is
vertical and leaves `x`, `vx` untouched. -/
theorem resolvePlatform_axis_spec :
    (∀ p e : _, overlapX p e < overlapY p e →
      (resolvePlatform p e).y = p.y ∧ (resolvePlatform p e).vy = p.vy ∧
      (resolvePlatform p e).vx = 0 ∧
      (0 < p.vx → (resolvePlatform p e).x = e.x - p.width) ∧
      (p.vx ≤ 0 → (resolvePlatform p e).x = e.x + e.w)) ∧
    (∀ p e : _, ¬ overlapX p e < overlapY p e →
      (resolvePlatform p e).x = p.x ∧ (resolvePlatform p e).vx = p.vx) := by
  refine ⟨?_, ?_⟩
  · intro p e h
    unfold resolvePlatform
    rcases lt_trichotomy p.vx 0 with hv | hv | hv
    · simp [h, not_lt.mpr (le_of_lt hv), hv.not_lt]
    · simp [h, hv]
    · simp [h, hv, hv.not_le]
  · intro p e h
    unfold resolvePlatform
    by_cases hv : p.vy > 0 <;> simp [h, hv]

/-- Witness for `resolvePlatform_axis_spec`: the horizontal case at the C2
geometry with a positive `vx`, and a vertical case. -/
theorem resolvePlatform_axis_spec_witness :
    (resolvePlatform ⟨90, 300, 3, 0, 30, 50, false, 1, 0⟩
      ⟨"p", 100, 290, 100, 100, EntityType.platform, none, none, none⟩).x = 100 - 30 := by
  have h := resolvePlatform_axis_spec.1
    ⟨90, 300, 3, 0, 30, 50, false, 1, 0⟩
    ⟨"p", 100, 290, 100, 100, EntityType.platform, none, none, none⟩
    (by norm_num [overlapX, overlapY])
  exact h.2.2.2.1 (by norm_num)

/-! ## C4: monster patrol invariant -/

/-- C4: a patrolling monster with `patrolStart < patrolEnd`, positive
`speed`, `|vx| = speed` and position inside the patrol range stays inside
the range after a step; reaching or passing a bound clamps the position to
the bound exactly and sets `vx` to `+|speed|` at `patrolStart`, `-|speed|`
at `patrolEnd`; strictly inside the open interval the velocity is kept
unchanged; and `|vx| = speed` is preserved. -/
theorem monsterStep_patrol (m : MonsterState)
    (hlt : m.patrolStart < m.patrolEnd)
    (hx1 : m.patrolStart ≤ m.x) (hx2 : m.x ≤ m.patrolEnd)
    (hs : 0 < m.speed) (hv : |m.vx| = m.speed) :
    (m.patrolStart ≤ (monsterStep m).x ∧ (monsterStep m).x ≤ m.patrolEnd) ∧
    |(monsterStep m).vx| = m.speed ∧
    (m.x + m.vx ≤ m.patrolStart →
      (monsterStep m).x = m.patrolStart ∧ (monsterStep m).vx = |m.speed|) ∧
    (m.patrolEnd ≤ m.x + m.vx →
      (monsterStep m).x = m.patrolEnd ∧ (monsterStep m).vx = -|m.speed|) ∧
    (m.patrolStart < m.x + m.vx → m.x + m.vx < m.patrolEnd →
      (monsterStep m).x = m.x + m.vx ∧ (monsterStep m).vx = m.vx) := by
  have habs : |m.speed| = m.speed := abs_of_pos hs
  simp only [monsterStep]
  split_ifs with h1 h2
  · exact ⟨⟨le_refl _, le_of_lt hlt⟩, by simp [abs_abs, habs], fun _ => ⟨rfl, rfl⟩,
      fun h => absurd hlt (not_lt.mpr (h.trans h1)),
      fun h _ => absurd h1 (not_le.mpr h)⟩
  · exact ⟨⟨le_of_lt hlt, le_refl _⟩, by simp [abs_neg, abs_abs, habs],
      fun h => absurd h h1, fun _ => ⟨rfl, rfl⟩,
      fun _ h => absurd h2 (not_le.mpr h)⟩
  · push_neg at h1 h2
    exact ⟨⟨le_of_lt h1, le_of_lt h2⟩, hv, fun h => absurd h (not_le.mpr h1),
      fun h => absurd h (not_le.mpr h2), fun _ _ => ⟨rfl, rfl⟩⟩

/-- Witness for `monsterStep_patrol` at a concrete monster reaching its
right bound. -/
theorem monsterStep_patrol_witness :
    (monsterStep ⟨"m", 199, 0, 40, 40, 2, 100, 200, 2⟩).x = 200 ∧
    (monsterStep ⟨"m", 199, 0, 40, 40, 2, 100, 200, 2⟩).vx = -|(2 : ℚ)| := by
  have h := monsterStep_patrol ⟨"m", 199, 0, 40, 40, 2, 100, 200, 2⟩
    (by norm_num) (by norm_num) (by norm_num) (by norm_num) (by norm_num)
  exact h.2.2.2.1 (by norm_num)

/-! ## C10: monster initialization defaults -/

/-- Concrete under-specified monster entity: `patrolStart` supplied as `200`,
`patrolEnd` and `speed` omitted. -/
def cexMonsterEntity : LevelEntity :=
  { id := "m", x := 0, y := 0, w := 40, h := 40, type := EntityType.monster,
    patrolStart := some 200 }

/-- C10 counterexample: for a monster entity that omits `patrolEnd` but
supplies `patrolStart = 200` at `x = 0`, initialization yields
`patrolStart = 200` and `patrolEnd = 100`, so the initializer does *not*
establish `patrolStart < patrolEnd` for every under-specified monster. -/
theorem initMonster_counterexample :
    cexMonsterEntity.type = EntityType.monster ∧
    cexMonsterEntity.patrolEnd = none ∧
    (initMonster cexMonsterEntity).patrolStart = 200 ∧
    (initMonster cexMonsterEntity).patrolEnd = 100 ∧
    ¬ (initMonster cexMonsterEntity).patrolStart < (initMonster cexMonsterEntity).patrolEnd := by
  norm_num [initMonster, jsOr, cexMonsterEntity]

/-- C10 (amended): omitted fields receive the defaults `speed = 2`,
`patrolStart = x - 100`, `patrolEnd = x + 100`; every monster starts with
`vx = speed`; an omitted `speed` yields `speed = 2 > 0`, and when *both*
patrol bounds are omitted the initializer establishes
`patrolStart < patrolEnd` — but not when exactly one bound is supplied. -/
theorem initMonster_defaults :
    (∀ e : LevelEntity, e.speed = none →
      (initMonster e).speed = 2 ∧ (initMonster e).vx = 2 ∧ 0 < (initMonster e).speed) ∧
    (∀ e : LevelEntity, e.patrolStart = none → (initMonster e).patrolStart = e.x - 100) ∧
    (∀ e : LevelEntity, e.patrolEnd = none → (initMonster e).patrolEnd = e.x + 100) ∧
    (∀ e : LevelEntity, (initMonster e).vx = (initMonster e).speed) ∧
    (∀ e : LevelEntity, e.patrolStart = none → e.patrolEnd = none →
      (initMonster e).patrolStart < (initMonster e).patrolEnd) := by
  refine ⟨fun e h => ?_, fun e h => ?_, fun e h => ?_, fun e => rfl, fun e h1 h2 => ?_⟩
  · simp [initMonster, jsOr, h]
  · simp [initMonster, jsOr, h]
  · simp [initMonster, jsOr, h]
  · simp only [initMonster, jsOr, h1, h2]
    linarith

/-- Witness for `initMonster_defaults` at a fully under-specified monster. -/
theorem initMonster_defaults_witness :
    (initMonster ⟨"w", 500, 0, 40, 40, EntityType.monster, none, none, none⟩).patrolStart <
      (initMonster ⟨"w", 500, 0, 40, 40, EntityType.monster, none, none, none⟩).patrolEnd :=
  initMonster_defaults.2.2.2.2 ⟨"w", 500, 0, 40, 40, EntityType.monster, none, none, none⟩ rfl rfl

/-! ## C8: restart determinism -/

/-- C8: the reset on entering `playing` is a function of the level data
alone: any two prior session states reset to identical sessions; the new
player is built from the first `start` entity with zero velocities,
`isGrounded = false`, `facing = 1`, `frame = 0`; camera and monsters are
rebuilt from scratch. -/
theorem resetSession_deterministic :
    (∀ (s₁ s₂ : SessionState) (level : List LevelEntity),
      resetSession s₁ level = resetSession s₂ level) ∧
    (∀ (s : SessionState) (level : List LevelEntity) (e : LevelEntity),
      level.find? (fun e => e.type = EntityType.start) = some e →
      (resetSession s level).player = ⟨e.x, e.y, 0, 0, 30, 50, false, 1, 0⟩) ∧
    (∀ (s : SessionState) (level : List LevelEntity),
      (resetSession s level).monsters = initMonsters level ∧
      (resetSession s level).camera = ⟨0, 0⟩) := by
  refine ⟨fun _ _ _ => rfl, fun s level e h => ?_, fun _ _ => ⟨rfl, rfl⟩⟩
  simp [resetSession, initPlayer, h]

/-- Witness for `resetSession_deterministic` on a one-entity level. -/
theorem resetSession_deterministic_witness :
    (resetSession ⟨⟨1, 2, 3, 4, 5, 6, true, -1, 7⟩, [], ⟨9, 9⟩⟩
        [⟨"s", 60, 340, 0, 0, EntityType.start, none, none, none⟩]).player =
      ⟨60, 340, 0, 0, 30, 50, false, 1, 0⟩ :=
  resetSession_deterministic.2.1 ⟨⟨1, 2, 3, 4, 5, 6, true, -1, 7⟩, [], ⟨9, 9⟩⟩
    [⟨"s", 60, 340, 0, 0, EntityType.start, none, none, none⟩]
    ⟨"s", 60, 340, 0, 0, EntityType.start, none, none, none⟩ rfl

/-! ## C9: camera smoothing and clamps -/

/-- C9: each camera update is exponential smoothing `cam + (target - cam) * a`
with horizontal coefficient `0.1` strictly greater than the vertical `0.05`;
the horizontal target centers the player and equals the clamp of the raw
center into `[0, levelWidth - viewportWidth]`; and the vertical target never
exceeds `lowestPoint - viewportHeight = 800 - ch`. -/
theorem cameraStep_spec :
    (∀ (cam : Camera) (p : PlayerState) (cw ch : ℚ),
      cameraStep cam p cw ch =
        ⟨cam.x + (cameraTargetX p cw - cam.x) * 0.1,
         cam.y + (cameraTargetY p ch - cam.y) * 0.05⟩) ∧
    ((0.05 : ℚ) < 0.1) ∧
    (∀ (p : PlayerState) (cw : ℚ),
      cameraTargetX p cw = min (max (p.x - cw / 2 + p.width / 2) 0) (levelWidth - cw)) ∧
    (∀ (p : PlayerState) (cw : ℚ), cw ≤ levelWidth →
      0 ≤ cameraTargetX p cw ∧ cameraTargetX p cw ≤ levelWidth - cw) ∧
    (∀ (p : PlayerState) (ch : ℚ), cameraTargetY p ch ≤ 800 - ch) := by
  have htx : ∀ (p : PlayerState) (cw : ℚ),
      cameraTargetX p cw = min (max (p.x - cw / 2 + p.width / 2) 0) (levelWidth - cw) := by
    intro p cw
    simp only [cameraTargetX, min_def, max_def]
    split_ifs <;> linarith
  refine ⟨fun _ _ _ _ => rfl, by norm_num, htx, fun p cw h => ?_, fun p ch => ?_⟩
  · rw [htx]
    constructor
    · exact le_min (le_max_right _ _) (by linarith)
    · exact min_le_right _ _
  · simp only [cameraTargetY]
    split_ifs <;> linarith

/-- Witness for `cameraStep_spec` with the viewport narrower than the level. -/
theorem cameraStep_spec_witness :
    0 ≤ cameraTargetX ⟨0, 0, 0, 0, 30, 50, false, 1, 0⟩ 800 :=
  (cameraStep_spec.2.2.2.1 ⟨0, 0, 0, 0, 30, 50, false, 1, 0⟩ 800 (by norm_num [levelWidth])).1

/-! ## C5: world clamp and void early exit -/

/-- Concrete void-frame input whose integrated state is still grounded. -/
def cexPlayerC5 : PlayerState := ⟨100, 900, 0, 0, 30, 50, true, 1, 0⟩

/-- Keys for the C5 counterexample: nothing pressed. -/
def cexKeysC5 : Keys := ⟨false, false, false⟩

/-- C5 counterexample: on a void frame the emitted outcome is `lost`, but the
resulting player is *not* bit-identical to the clamped integrated state — the
collision pass already reset `isGrounded` to `false` before the void check. -/
theorem update_void_counterexample :
    (update cexKeysC5 1 [] cexPlayerC5 [] ⟨0, 0⟩ 800 600).outcome = Outcome.lost ∧
    (update cexKeysC5 1 [] cexPlayerC5 [] ⟨0, 0⟩ 800 600).player ≠
      clampWorldX (physicsStep cexKeysC5 1 cexPlayerC5) := by
  norm_num +decide [update, physicsStep, nextVx, nextFacing, clampVx, clampWorldX,
    entityScan, monsterCollide, gravity, friction, moveSpeed, maxSpeed, baseJumpForce,
    levelWidth, cexKeysC5, cexPlayerC5]

/-- C5 (amended): the world clamp acts exactly as claimed on `x` and `vx`; a
frame whose integrated, clamped `y` exceeds `800` emits `lost` immediately
with no entity scan, no monster collision check and no camera update, and the
resulting player is the clamped integrated state with the already-applied
`isGrounded := false` reset. -/
theorem update_void_spec :
    (∀ p : PlayerState,
      (p.x < 0 → clampWorldX p = { p with x := 0, vx := 0 }) ∧
      (p.x > levelWidth → clampWorldX p = { p with x := levelWidth, vx := 0 }) ∧
      (0 ≤ p.x → p.x ≤ levelWidth → clampWorldX p = p)) ∧
    (∀ (keys : Keys) (jm : ℚ) (level : List LevelEntity) (p : PlayerState)
      (ms : List MonsterState) (cam : Camera) (cw ch : ℚ),
      (clampWorldX { physicsStep keys jm p with isGrounded := false }).y > 800 →
      update keys jm level p ms cam cw ch =
        ⟨clampWorldX { physicsStep keys jm p with isGrounded := false },
         ms.map monsterStep, cam, Outcome.lost⟩) := by
  constructor
  · intro p
    refine ⟨fun h => ?_, fun h => ?_, fun h1 h2 => ?_⟩
    · have : ¬ (0 : ℚ) > levelWidth := by norm_num [levelWidth]
      simp [clampWorldX, h, this]
    · have h0 : ¬ p.x < 0 := by
        simp only [levelWidth] at h
        push_neg
        linarith
      simp [clampWorldX, h0, h]
    · simp [clampWorldX, not_lt.mpr h1, not_lt.mpr h2]
  · intro keys jm level p ms cam cw ch h
    simp only [update]
    rw [if_pos h]

/-- Keys for the `update_void_spec` witness: nothing pressed. -/
def cexKeysC5w : Keys := ⟨false, false, false⟩

/-- Witness for `update_void_spec`: a frame that falls into the void. -/
theorem update_void_spec_witness :
    update cexKeysC5w 1 [] ⟨100, 900, 0, 0, 30, 50, false, 1, 0⟩ [] ⟨0, 0⟩ 800 600 =
      ⟨clampWorldX { physicsStep cexKeysC5w 1 ⟨100, 900, 0, 0, 30, 50, false, 1, 0⟩
          with isGrounded := false }, [], ⟨0, 0⟩, Outcome.lost⟩ :=
  update_void_spec.2 cexKeysC5w 1 [] ⟨100, 900, 0, 0, 30, 50, false, 1, 0⟩ [] ⟨0, 0⟩ 800 600
    (by norm_num [clampWorldX, physicsStep, nextVx, nextFacing, clampVx, gravity,
      friction, moveSpeed, maxSpeed, baseJumpForce, levelWidth, cexKeysC5w])

/-! ## C6: hazard contact -/

/-- Platform under the player for the C6 counterexample, listed before the
hazard. -/
def cexPlatformC6 : LevelEntity :=
  { id := "P", x := 0, y := 400, w := 200, h := 50, type := EntityType.platform }

/-- Hazard overlapped by the player at scan start in the C6 counterexample. -/
def cexHazardC6 : LevelEntity :=
  { id := "H", x := 40, y := 405, w := 40, h := 20, type := EntityType.hazard }

/-- Pre-physics player for the C6 counterexample; after integration it
overlaps both the platform and the hazard. -/
def cexPlayerC6 : PlayerState := ⟨50, 355, 0, 22/5, 30, 50, false, 1, 0⟩

/-- Keys for the C6 counterexample: nothing pressed. -/
def cexKeysC6 : Keys := ⟨false, false, false⟩

/-- C6 counterexample: the player strictly overlaps a hazard at the moment
the static scan begins, yet the frame's emitted status is *not* `lost` — an
earlier platform in entity order resolves the player out of the hazard. -/
theorem update_hazard_counterexample :
    overlapsEntity (clampWorldX { physicsStep cexKeysC6 1 cexPlayerC6 with isGrounded := false })
      cexHazardC6 = true ∧
    cexHazardC6.type = EntityType.hazard ∧
    (update cexKeysC6 1 [cexPlatformC6, cexHazardC6] cexPlayerC6 [] ⟨0, 0⟩ 800 600).outcome =
      Outcome.ongoing := by
  norm_num +decide [update, physicsStep, nextVx, nextFacing, clampVx, clampWorldX,
    entityScan, overlapsEntity, rectOverlap, resolvePlatform, overlapX, overlapY,
    monsterCollide, gravity, friction, moveSpeed, maxSpeed, baseJumpForce, levelWidth,
    cexKeysC6, cexPlayerC6, cexPlatformC6, cexHazardC6]

/-- C6 (amended): if the scan, having processed a prefix of the level with no
terminal outcome, reaches a hazard that the (possibly platform-resolved)
player still strictly overlaps, the scan emits `lost` and stops there —
entities after the hazard are never examined. In particular a hazard overlap
surviving to its position in entity order always loses, regardless of
platform overlaps later in the order. -/
theorem entityScan_hazard_lost (pre rest : List LevelEntity) (hz : LevelEntity)
    (p p' : PlayerState)
    (hpre : entityScan pre p = (p', Outcome.ongoing))
    (htype : hz.type = EntityType.hazard)
    (hov : overlapsEntity p' hz = true) :
    entityScan (pre ++ hz :: rest) p = (p', Outcome.lost) := by
  induction pre generalizing p with
  | nil =>
    obtain ⟨rfl, -⟩ := Prod.mk.injEq .. ▸ hpre
    simp [entityScan, htype, hov]
  | cons e pre ih =>
    simp only [List.cons_append, entityScan] at hpre ⊢
    split_ifs at hpre ⊢ with h1 h2 h3 h4 h5
    · exact ih p hpre
    · exact absurd (congrArg Prod.snd hpre) (by simp)
    · exact absurd (congrArg Prod.snd hpre) (by simp)
    · exact ih (resolvePlatform p e) hpre
    · exact ih p hpre
    · exact ih p hpre

/-- Witness for `entityScan_hazard_lost`: empty prefix, player on a hazard. -/
theorem entityScan_hazard_lost_witness :
    entityScan ([] ++ ⟨"h", 40, 405, 40, 20, EntityType.hazard, none, none, none⟩ :: [])
      ⟨50, 400, 0, 0, 30, 50, false, 1, 0⟩ =
      (⟨50, 400, 0, 0, 30, 50, false, 1, 0⟩, Outcome.lost) :=
  entityScan_hazard_lost [] [] ⟨"h", 40, 405, 40, 20, EntityType.hazard, none, none, none⟩
    ⟨50, 400, 0, 0, 30, 50, false, 1, 0⟩ ⟨50, 400, 0, 0, 30, 50, false, 1, 0⟩
    rfl rfl (by norm_num [overlapsEntity, rectOverlap])

/-! ## C3: grounding invariant -/

/-- Purely geometric record of whether the sequential entity scan performs a
downward platform resolution (overlap, vertical axis chosen, `vy > 0`) at
some point of the frame; it never consults the `isGrounded` flag. -/
def groundingEvent : List LevelEntity → PlayerState → Bool
  | [], _ => false
  | e :: rest, p =>
    if e.type = EntityType.monster then groundingEvent rest p
    else if overlapsEntity p e then
      if e.type = EntityType.hazard then false
      else if e.type = EntityType.goal then false
      else if e.type = EntityType.platform then
        if overlapX p e < overlapY p e then groundingEvent rest (resolvePlatform p e)
        else if p.vy > 0 then true
        else groundingEvent rest (resolvePlatform p e)
      else groundingEvent rest p
    else groundingEvent rest p

/-- `resolvePlatform` never clears the grounded flag. -/
theorem resolvePlatform_grounded_mono (p : PlayerState) (e : LevelEntity)
    (h : p.isGrounded = true) : (resolvePlatform p e).isGrounded = true := by
  unfold resolvePlatform
  split_ifs <;> simpa using h

/-- Once set inside the scan, the grounded flag survives to the end. -/
theorem entityScan_grounded_mono (l : List LevelEntity) (p : PlayerState)
    (h : p.isGrounded = true) : ((entityScan l p).1).isGrounded = true := by
  induction l generalizing p with
  | nil => simpa [entityScan] using h
  | cons e rest ih =>
    simp only [entityScan]
    split_ifs
    · exact ih p h
    · exact h
    · exact h
    · exact ih (resolvePlatform p e) (resolvePlatform_grounded_mono p e h)
    · exact ih p h
    · exact ih p h

/-- The scan's final grounded flag is the initial flag joined with the
geometric grounding event. -/
theorem entityScan_grounded_eq (l : List LevelEntity) (p : PlayerState) :
    ((entityScan l p).1).isGrounded = (p.isGrounded || groundingEvent l p) := by
  induction l generalizing p with
  | nil => simp [entityScan, groundingEvent]
  | cons e rest ih =>
    simp only [entityScan, groundingEvent]
    split_ifs with h1 h2 h3 h4 h5 h6 h7
    · exact ih p
    · simp
    · simp
    · rw [ih (resolvePlatform p e)]
      have : (resolvePlatform p e).isGrounded = p.isGrounded := by
        simp [resolvePlatform, h6]
      rw [this]
    · have : (resolvePlatform p e).isGrounded = true := by
        simp [resolvePlatform, h6, h7]
      rw [entityScan_grounded_mono rest (resolvePlatform p e) this]
      simp
    · rw [ih (resolvePlatform p e)]
      have : (resolvePlatform p e).isGrounded = p.isGrounded := by
        simp [resolvePlatform, h6, h7]
      rw [this]
    · exact ih p
    · exact ih p

/-- C3: `isGrounded` is reset to `false` at the start of the collision pass,
and the frame ends grounded exactly when the scan performed a downward
platform resolution with `vy > 0` (a void frame, which skips the scan, ends
ungrounded); that resolution snaps the player's bottom to the platform top
and zeroes `vy`. -/
theorem update_grounded_spec :
    (∀ (keys : Keys) (jm : ℚ) (level : List LevelEntity) (p : PlayerState)
      (ms : List MonsterState) (cam : Camera) (cw ch : ℚ),
      (update keys jm level p ms cam cw ch).player.isGrounded =
        (if (clampWorldX { physicsStep keys jm p with isGrounded := false }).y > 800 then false
         else groundingEvent level
           (clampWorldX { physicsStep keys jm p with isGrounded := false }))) ∧
    (∀ (p : PlayerState) (e : LevelEntity),
      ¬ overlapX p e < overlapY p e → 0 < p.vy →
      resolvePlatform p e = { p with y := e.y - p.height, isGrounded := true, vy := 0 }) := by
  constructor
  · intro keys jm level p ms cam cw ch
    simp only [update]
    set q := clampWorldX { physicsStep keys jm p with isGrounded := false } with hq
    have hqg : q.isGrounded = false := by
      simp [hq, clampWorldX]
      split_ifs <;> rfl
    by_cases hv : q.y > 800
    · rw [if_pos hv, if_pos hv]
      exact hqg
    · rw [if_neg hv, if_neg hv]
      have hg := entityScan_grounded_eq level q
      rcases hsc : entityScan level q with ⟨p', o⟩
      rw [hsc] at hg
      simp only [hqg, Bool.false_or] at hg
      cases o
      · dsimp only
        split_ifs <;> exact hg
      · exact hg
      · exact hg
  · intro p e h1 h2
    simp [resolvePlatform, h1, h2]

/-- Witness for `update_grounded_spec`: the downward resolution branch at a
concrete falling player over a platform. -/
theorem update_grounded_spec_witness :
    resolvePlatform ⟨50, 360, 0, 5, 30, 50, false, 1, 0⟩
        ⟨"P", 0, 400, 200, 50, EntityType.platform, none, none, none⟩ =
      ⟨50, 350, 0, 0, 30, 50, true, 1, 0⟩ := by
  have h := update_grounded_spec.2 ⟨50, 360, 0, 5, 30, 50, false, 1, 0⟩
    ⟨"P", 0, 400, 200, 50, EntityType.platform, none, none, none⟩
    (by norm_num [overlapX, overlapY]) (by norm_num)
  rw [h]
  norm_num

/-! ## C7: horizontal speed under held input -/

/-- Frame-indexed `vx` under a continuously held right arrow key, starting
from rest. -/
def heldVx : ℕ → ℚ
  | 0 => 0
  | n + 1 => nextVx false true (heldVx n)

/-- The clamp is the identity inside `[-maxSpeed, maxSpeed]`. -/
theorem clampVx_eq_self {v : ℚ} (h1 : -maxSpeed ≤ v) (h2 : v ≤ maxSpeed) :
    clampVx v = v := by
  simp only [clampVx]
  split_ifs <;> linarith

/-- Closed form: under held input `vx` approaches `68/15`, the fixed point of
`v ↦ (v + 0.8) * 0.85`, geometrically. -/
theorem heldVx_formula (n : ℕ) : heldVx n = 68/15 * (1 - (17/20 : ℚ) ^ n) := by
  induction n with
  | zero => simp [heldVx]
  | succ n ih =>
    have hq0 : (0 : ℚ) ≤ (17/20 : ℚ) ^ n := pow_nonneg (by norm_num) n
    have hq1 : (17/20 : ℚ) ^ n ≤ 1 := pow_le_one₀ (by norm_num) (by norm_num)
    have hstep : heldVx (n + 1) = clampVx ((heldVx n + 0.8) * 0.85) := rfl
    have hlo : -maxSpeed ≤ (68/15 * (1 - (17/20 : ℚ) ^ n) + 0.8) * 0.85 := by
      simp only [maxSpeed]
      nlinarith
    have hhi : (68/15 * (1 - (17/20 : ℚ) ^ n) + 0.8) * 0.85 ≤ maxSpeed := by
      simp only [maxSpeed]
      nlinarith
    rw [hstep, ih, clampVx_eq_self hlo hhi, pow_succ]
    ring

/-- Geometric decay bound via Bernoulli's inequality. -/
theorem pow_seventeen_twentieths_le (n : ℕ) (hn : 1 ≤ n) :
    (17/20 : ℚ) ^ n ≤ 17 / (3 * n) := by
  have hb : 1 + (n : ℚ) * (3/17) ≤ (20/17 : ℚ) ^ n := by
    have h := one_add_mul_le_pow (a := (3/17 : ℚ)) (by norm_num) n
    have h2 : (1 : ℚ) + 3/17 = 20/17 := by norm_num
    rwa [h2] at h
  have hpos : (0 : ℚ) < (17/20 : ℚ) ^ n := pow_pos (by norm_num) n
  have hmul : (20/17 : ℚ) ^ n * (17/20 : ℚ) ^ n = 1 := by
    rw [← mul_pow]
    norm_num
  have key : (1 + (n : ℚ) * (3/17)) * ((17/20 : ℚ) ^ n) ≤ 1 := by
    calc (1 + (n : ℚ) * (3/17)) * ((17/20 : ℚ) ^ n)
        ≤ (20/17 : ℚ) ^ n * (17/20 : ℚ) ^ n :=
          mul_le_mul_of_nonneg_right hb hpos.le
      _ = 1 := hmul
  have hnpos : (0 : ℚ) < (n : ℚ) := by exact_mod_cast hn
  rw [le_div_iff (by positivity)]
  nlinarith [key, hpos.le]

/-- After the clamp, `|vx|` never exceeds `maxSpeed`. -/
theorem clampVx_abs_le (v : ℚ) : |clampVx v| ≤ maxSpeed := by
  simp only [clampVx, maxSpeed]
  split_ifs <;> rw [abs_le] <;> exact ⟨by linarith, by linarith⟩

/-- C7 counterexample: `heldVx` does not asymptote to `maxSpeed = 8`; every
term stays at or below `68/15 < 8`, so no tail lies within `1` of
`maxSpeed`. -/
theorem heldVx_not_tendsto_maxSpeed :
    ¬ (∀ ε : ℚ, 0 < ε → ∃ N : ℕ, ∀ n ≥ N, |heldVx n - maxSpeed| < ε) := by
  intro h
  obtain ⟨N, hN⟩ := h 1 one_pos
  have h1 := hN N le_rfl
  have h2 : heldVx N ≤ 68/15 := by
    rw [heldVx_formula]
    nlinarith [pow_nonneg (show (0:ℚ) ≤ 17/20 by norm_num) N]
  rw [abs_lt] at h1
  simp only [maxSpeed] at h1
  have := h1.1
  linarith

/-- C7 (amended): the clamped `vx` never exceeds `maxSpeed = 8` in absolute
value, for any input and incoming velocity; under a held right arrow from
rest, `vx` is strictly increasing, bounded by `68/15`, and converges to
`68/15 = (moveSpeed · friction)/(1 − friction) ≈ 4.53` — strictly below
`maxSpeed`, which it therefore never approaches. -/
theorem heldVx_spec :
    (∀ (left right : Bool) (v : ℚ), |nextVx left right v| ≤ maxSpeed) ∧
    (∀ n : ℕ, heldVx n ≤ 68/15 ∧ heldVx n < heldVx (n + 1)) ∧
    (∀ ε : ℚ, 0 < ε → ∃ N : ℕ, ∀ n ≥ N, 68/15 - heldVx n < ε) := by
  refine ⟨fun left right v => ?_, fun n => ⟨?_, ?_⟩, fun ε hε => ?_⟩
  · simp only [nextVx]
    exact clampVx_abs_le _
  · rw [heldVx_formula]
    nlinarith [pow_nonneg (show (0:ℚ) ≤ 17/20 by norm_num) n]
  · rw [heldVx_formula n, heldVx_formula (n + 1), pow_succ]
    nlinarith [pow_pos (show (0:ℚ) < 17/20 by norm_num) n]
  · refine ⟨⌈(1156 : ℚ) / (45 * ε)⌉₊ + 1, fun n hn => ?_⟩
    have hn1 : 1 ≤ n := le_trans (Nat.le_add_left 1 _) hn
    have hnQ : (1156 : ℚ) / (45 * ε) < (n : ℚ) := by
      have hc : ((1156 : ℚ) / (45 * ε)) ≤ (⌈(1156 : ℚ) / (45 * ε)⌉₊ : ℚ) := Nat.le_ceil _
      have h2 : ((⌈(1156 : ℚ) / (45 * ε)⌉₊ + 1 : ℕ) : ℚ) ≤ (n : ℚ) := by exact_mod_cast hn
      push_cast at h2
      linarith
    have hnpos : (0 : ℚ) < (n : ℚ) := by exact_mod_cast Nat.lt_of_lt_of_le Nat.zero_lt_one hn1
    have h5 : (1156 : ℚ) < (n : ℚ) * (45 * ε) := (div_lt_iff (by positivity)).mp hnQ
    have hple := pow_seventeen_twentieths_le n hn1
    have h3 : (68 : ℚ)/15 * ((17/20 : ℚ) ^ n) ≤ 68/15 * (17 / (3 * (n : ℚ))) :=
      mul_le_mul_of_nonneg_left hple (by norm_num)
    have h6 : (68 : ℚ)/15 * (17 / (3 * (n : ℚ))) = 1156 / (45 * (n : ℚ)) := by
      field_simp
      ring
    have h4 : (1156 : ℚ) / (45 * (n : ℚ)) < ε := by
      rw [div_lt_iff (by positivity)]
      linarith
    rw [heldVx_formula]
    rw [h6] at h3
    linarith

/-- Witness for `heldVx_spec` at tolerance `1`. -/
theorem heldVx_spec_witness : ∃ N : ℕ, ∀ n ≥ N, 68/15 - heldVx n < 1 :=
  heldVx_spec.2.2 1 one_pos

end KiloMan
